import Mathlib

/-!
Verification of the isopod core: the GCP-backed Kubernetes credential
resolver (package gke) and the multi-cluster execution orchestrator
(package main), embedded shallowly from the Go source.

External collaborators (glog, oauth2, the container API, the discovery and
addons runtimes, the test runner) are modelled as oracles recorded in
environment records; every step the source performs on them is mirrored in
an explicit trace/state so that call counts, ordering and sharing are
provable facts.
-/

namespace Isopod

/-! ### Base64 (Go encoding/base64, StdEncoding)

`buildKubeRestConf` decodes the cluster CA certificate with
`base64.StdEncoding.DecodeString`.  We embed the standard encoding with
padding; Go's decoder ignores CR and LF characters anywhere in the input
and (in its default, non-Strict mode) does not insist that unused trailing
bits of a padded final quantum be zero. -/

def base64Alphabet : List Char :=
  "ABCDEFGHIJKLMNOPQRSTUVWXYZabcdefghijklmnopqrstuvwxyz0123456789+/".toList

def base64Char (n : Nat) : Char := base64Alphabet.getD n 'A'

def base64Index (c : Char) : Option Nat :=
  if 'A' ≤ c ∧ c ≤ 'Z' then some (c.toNat - 65)
  else if 'a' ≤ c ∧ c ≤ 'z' then some (c.toNat - 97 + 26)
  else if '0' ≤ c ∧ c ≤ '9' then some (c.toNat - 48 + 52)
  else if c = '+' then some 62
  else if c = '/' then some 63
  else none

/-- Bytes are naturals; well-formed byte strings have entries below 256. -/
abbrev Bytes := List Nat

def b64EncodeChunks : Bytes → List Char
  | [] => []
  | [b1] =>
      [base64Char (b1 / 4), base64Char (b1 % 4 * 16), '=', '=']
  | [b1, b2] =>
      [base64Char (b1 / 4), base64Char (b1 % 4 * 16 + b2 / 16),
       base64Char (b2 % 16 * 4), '=']
  | b1 :: b2 :: b3 :: rest =>
      base64Char (b1 / 4) :: base64Char (b1 % 4 * 16 + b2 / 16) ::
      base64Char (b2 % 16 * 4 + b3 / 64) :: base64Char (b3 % 64) ::
      b64EncodeChunks rest

def base64Encode (bs : Bytes) : String := ⟨b64EncodeChunks bs⟩

def b64DecodeChunks : List Char → Option Bytes
  | [] => some []
  | c1 :: c2 :: c3 :: c4 :: rest =>
      match base64Index c1, base64Index c2 with
      | some a, some b =>
          if c3 = '=' then
            if c4 = '=' ∧ rest = [] then some [a * 4 + b / 16] else none
          else
            match base64Index c3 with
            | some c =>
                if c4 = '=' then
                  if rest = [] then some [a * 4 + b / 16, b % 16 * 16 + c / 4]
                  else none
                else
                  match base64Index c4 with
                  | some d =>
                      (b64DecodeChunks rest).map fun bs =>
                        (a * 4 + b / 16) :: (b % 16 * 16 + c / 4) ::
                        (c % 4 * 64 + d) :: bs
                  | none => none
            | none => none
      | _, _ => none
  | _ => none

/-- Go base64 decoding skips CR and LF anywhere in the input. -/
def base64Decode (s : String) : Option Bytes :=
  b64DecodeChunks (s.data.filter fun c => !(c == '\r' || c == '\n'))

/-! ### GKE credential resolver (package gke)

Embedding of `GoogleCredTokenSourceFromSAKey`, `BuildKubeRestConfSACred`,
`BuildKubeRestConfDefaultCred` and `buildKubeRestConf`.  External library
calls are oracles held in `GkeEnv`; token-source creation, management-API
client construction and cluster lookups are recorded in `GkeState`, so that
call ordering and sharing become provable.  A token source is represented
by the numeric id allocated at its creation: two calls share a token source
exactly when they hold the same id. -/

/-- Where a token source came from (one entry recorded per creation). -/
inductive TokenOrigin where
  | saKey (path : String)
  | defaultCred
deriving DecidableEq, Repr

/-- Cluster metadata returned by the container management API
(`cluster.Endpoint` and `cluster.MasterAuth.ClusterCaCertificate`). -/
structure ClusterInfo where
  endpoint : String
  clusterCaCertificate : String
deriving DecidableEq, Repr

/-- Oracles for the external libraries the resolver calls. -/
structure GkeEnv where
  /-- `ioutil.ReadFile`: contents of each path, `none` if unreadable/missing. -/
  files : String → Option Bytes
  /-- Whether `google.CredentialsFromJSON` accepts the given bytes. -/
  credFromJSON : Bytes → Bool
  /-- Whether `google.DefaultTokenSource` finds ambient credentials. -/
  defaultTokenSourceOk : Bool
  /-- Whether `container.NewService` succeeds. -/
  newServiceOk : Bool
  /-- `Projects.Locations.Clusters.Get` keyed by fully-qualified name;
  `none` is a transport/not-found error. -/
  getCluster : String → Option ClusterInfo

/-- Observable resolver state: the token-source allocator and counts of the
management-API interactions. -/
structure GkeState where
  nextTokenId : Nat
  tokenOrigins : List TokenOrigin
  svcConstructions : Nat
  clusterGets : Nat
deriving DecidableEq, Repr

/-- Error classes of the resolver, mirroring the wrapped `fmt.Errorf`
messages; `tokenSourceFromSA` is the wrap added by `BuildKubeRestConfSACred`. -/
inductive GkeError where
  | credentialFile (path : String)
  | credentialParse
  | tokenSourceFromSA (e : GkeError)
  | defaultTokenSource
  | containerService
  | clusterLookup (name : String)
  | certDecode
deriving DecidableEq, Repr

/-- The produced `rest.Config`: host, decoded CA bytes, the token source id
captured by `transport.TokenSourceWrapTransport`, and the user agent. -/
structure RestConfig where
  host : String
  caData : Bytes
  wrapTransportToken : Nat
  userAgent : String
deriving DecidableEq, Repr

/-- `GoogleCredTokenSourceFromSAKey`: read the SA key file, parse it, and
derive a fresh token source from the bytes. -/
def GoogleCredTokenSourceFromSAKey (env : GkeEnv) (svcAcctKeyFile : String)
    (s : GkeState) : Except GkeError Nat × GkeState :=
  match env.files svcAcctKeyFile with
  | none => (.error (.credentialFile svcAcctKeyFile), s)
  | some b =>
      if env.credFromJSON b then
        (.ok s.nextTokenId,
         { s with nextTokenId := s.nextTokenId + 1,
                  tokenOrigins := s.tokenOrigins ++ [.saKey svcAcctKeyFile] })
      else (.error .credentialParse, s)

/-- The fully-qualified cluster resource name template of the lookup. -/
def resourceName (project location clusterName : String) : String :=
  "projects/" ++ project ++ "/locations/" ++ location ++ "/clusters/" ++ clusterName

/-- `buildKubeRestConf`: construct the management-API client, look the
cluster up, base64-decode its CA certificate, and assemble the config. -/
def buildKubeRestConf (env : GkeEnv)
    (clusterName location project userAgent : String) (tokenSrc : Nat)
    (s : GkeState) : Except GkeError RestConfig × GkeState :=
  let s1 := { s with svcConstructions := s.svcConstructions + 1 }
  if env.newServiceOk then
    let name := resourceName project location clusterName
    let s2 := { s1 with clusterGets := s1.clusterGets + 1 }
    match env.getCluster name with
    | none => (.error (.clusterLookup name), s2)
    | some cluster =>
        match base64Decode cluster.clusterCaCertificate with
        | none => (.error .certDecode, s2)
        | some caCert =>
            (.ok { host := "https://" ++ cluster.endpoint,
                   caData := caCert,
                   wrapTransportToken := tokenSrc,
                   userAgent := userAgent }, s2)
  else (.error .containerService, s1)

/-- `BuildKubeRestConfDefaultCred`: obtain an ambient default token source,
then delegate to the shared lookup. -/
def BuildKubeRestConfDefaultCred (env : GkeEnv)
    (clusterName location project userAgent : String) (s : GkeState) :
    Except GkeError RestConfig × GkeState :=
  if env.defaultTokenSourceOk then
    let tok := s.nextTokenId
    let s1 := { s with nextTokenId := s.nextTokenId + 1,
                       tokenOrigins := s.tokenOrigins ++ [.defaultCred] }
    buildKubeRestConf env clusterName location project userAgent tok s1
  else (.error .defaultTokenSource, s)

/-- `BuildKubeRestConfSACred`: dispatch on the key-file path; empty falls
back to the default credential, non-empty derives a token source from the
key file and delegates to the shared lookup. -/
def BuildKubeRestConfSACred (env : GkeEnv)
    (clusterName location project svcAcctKeyFile userAgent : String)
    (s : GkeState) : Except GkeError RestConfig × GkeState :=
  if svcAcctKeyFile = "" then
    BuildKubeRestConfDefaultCred env clusterName location project userAgent s
  else
    match GoogleCredTokenSourceFromSAKey env svcAcctKeyFile s with
    | (.error e, s1) => (.error (.tokenSourceFromSA e), s1)
    | (.ok tok, s1) =>
        buildKubeRestConf env clusterName location project userAgent tok s1

/-- The service-account-key strategy of the resolver as a standalone
function (source lines 53-57 of the resolver file), used to state the
dispatch property. -/
def saKeyStrategy (env : GkeEnv)
    (clusterName location project svcAcctKeyFile userAgent : String)
    (s : GkeState) : Except GkeError RestConfig × GkeState :=
  match GoogleCredTokenSourceFromSAKey env svcAcctKeyFile s with
  | (.error e, s1) => (.error (.tokenSourceFromSA e), s1)
  | (.ok tok, s1) =>
      buildKubeRestConf env clusterName location project userAgent tok s1

/-- Identity of one managed cluster. -/
structure ClusterIdentity where
  name : String
  location : String
  project : String
deriving DecidableEq, Repr

/-- Modelled from the spec: the cluster-vendor object handed to the
orchestrator's per-cluster visitor exposes `kubeConfig(ctx)`, and the
resolver's `resolve` entry point (`BuildKubeRestConfSACred`) "is the only
entry point the orchestrator calls"; the vendor implementation itself
(package cloud) is not among the sources, so each per-cluster `KubeConfig`
call is modelled as one call of that entry point. -/
def vendorKubeConfig (env : GkeEnv) (id : ClusterIdentity)
    (svcAcctKeyFile userAgent : String) (s : GkeState) :
    Except GkeError RestConfig × GkeState :=
  BuildKubeRestConfSACred env id.name id.location id.project svcAcctKeyFile
    userAgent s

/-- Sequential per-cluster credential resolution across a discovered
cluster list, threading the resolver state. -/
def resolveAll (env : GkeEnv) (ids : List ClusterIdentity)
    (svcAcctKeyFile userAgent : String) (s : GkeState) :
    List (Except GkeError RestConfig) × GkeState :=
  match ids with
  | [] => ([], s)
  | id :: rest =>
      let (r, s1) := vendorKubeConfig env id svcAcctKeyFile userAgent s
      let (rs, s2) := resolveAll env rest svcAcctKeyFile userAgent s1
      (r :: rs, s2)

/-! ### Execution orchestrator (package main)

Embedding of `init`, `getCmdAndPath`, `usageAndDie`, `buildAddonsRuntime`
and `main`.  External collaborator outcomes are oracles in `Env`; every
call the orchestrator makes to discovery, credential resolution, the test
runner and the workload runtime is counted in `Trace`.  `log.Exitf` and
`log.Fatalf` terminate with a logging-library-chosen status and are kept
distinct from the explicit `os.Exit(code)` calls of the source. -/

/-- How the process terminates: an explicit `os.Exit(code)` (a normal
return from `main` is `exit 0`), a terminating `log.Exitf`/`log.Fatalf`
tagged with the failing phase, or a panic. -/
inductive FatalPhase where
  | initVaultToken
  | testRun
  | emptyPath
  | ctxParams
  | clustersRuntimeNew
  | clustersLoad
  | kubeConfig
  | addonsBuild
  | addonsLoad
  | forEach
deriving DecidableEq, Repr

inductive Outcome where
  | exit (code : Nat)
  | fatal (phase : FatalPhase)
  | panicked
deriving DecidableEq, Repr

/-- Counts of the orchestrator's calls to its collaborators. -/
structure Trace where
  discoveryConstructions : Nat := 0
  discoveryLoads : Nat := 0
  credResolutions : Nat := 0
  addonsBuilds : Nat := 0
  workloadRuns : Nat := 0
  testRuns : Nat := 0
deriving DecidableEq, Repr

/-- Per-cluster collaborator outcomes for one visited cluster. -/
structure ClusterVisit where
  /-- `k8sVendor.KubeConfig(ctx)` succeeds. -/
  kubeConfigOk : Bool
  /-- `vaultapi.NewClient(nil)` succeeds. -/
  vaultClientOk : Bool
  /-- `kubernetes.NewForConfig` succeeds. -/
  kubeClientsetOk : Bool
  /-- `runtime.New` for the addons runtime succeeds. -/
  addonsNewOk : Bool
  /-- `addons.Load(ctx)` succeeds. -/
  addonsLoadOk : Bool
  /-- `addons.Run(ctx, cmd, ...)` succeeds. -/
  runOk : Bool
deriving DecidableEq, Repr

/-- Process-wide inputs and collaborator oracles. -/
structure Env where
  /-- Whether `--vault_token` was passed on the command line. -/
  vaultTokenFlagSet : Bool
  vaultTokenFlagVal : String
  /-- `$VAULT_TOKEN`, the flag's default value. -/
  vaultTokenEnv : String
  showVersion : Bool
  /-- `flag.Args()`, the positional arguments. -/
  args : List String
  /-- Whether `regexp.MustCompile` accepts `--match_addons`. -/
  addonRegexCompiles : Bool
  /-- `runtime.RunUnitTests`: harness error, or the tests-passed boolean. -/
  testResult : Except Unit Bool
  /-- `util.ParseCommaSeparatedParams(*isopodCtx)` succeeds. -/
  ctxParamsOk : Bool
  /-- `runtime.New` for the clusters runtime succeeds. -/
  clustersNewOk : Bool
  /-- `clusters.Load(ctx)` succeeds. -/
  clustersLoadOk : Bool
  /-- The clusters yielded by discovery, in discovery order. -/
  clusters : List ClusterVisit
  /-- `clusters.ForEachCluster` itself returns no error. -/
  forEachOk : Bool

/-- The flag value seen by `init`: the command-line value if given,
otherwise the flag's default `os.Getenv("VAULT_TOKEN")`. -/
def effectiveVaultToken (e : Env) : String :=
  if e.vaultTokenFlagSet then e.vaultTokenFlagVal else e.vaultTokenEnv

/-- `getCmdAndPath`: `none` is `usageAndDie` (which exits with status 1);
a missing path is tolerated only for the `test` command. -/
def getCmdAndPath (argv : List String) : Option (String × String) :=
  match argv with
  | [] => none
  | [c] => if c = "test" then some (c, "") else none
  | c :: p :: _ => some (c, p)

/-- Result of `buildAddonsRuntime` for one cluster: a returned wrapped
error, a panic (from `regexp.MustCompile`), or success. -/
inductive BuildResult where
  | ok
  | err
  | panicked
deriving DecidableEq, Repr

/-- `buildAddonsRuntime`: Vault client, Kubernetes clientset, then the
option list whose `WithAddonRegex(regexp.MustCompile(*addonRegex))` panics
on an invalid pattern, then `runtime.New`. -/
def buildAddonsRuntime (vaultClientOk kubeClientsetOk regexCompiles
    addonsNewOk : Bool) : BuildResult :=
  if vaultClientOk then
    if kubeClientsetOk then
      if regexCompiles then
        if addonsNewOk then .ok else .err
      else .panicked
    else .err
  else .err

/-- The per-cluster loop of `main`: the `ForEachCluster` visitor, with the
accumulated `errorReturned` flag, followed by the final flag check.
A `KubeConfig`, runtime-construction or `Load` failure is `log.Exitf`
(process-fatal, remaining clusters unvisited); a `Run` failure only sets
the flag and iteration continues. -/
def runClusters (e : Env) : List ClusterVisit → Bool → Trace → Outcome × Trace
  | [], errorReturned, t =>
      if e.forEachOk then
        if errorReturned then (.exit 2, t) else (.exit 0, t)
      else (.fatal .forEach, t)
  | cv :: rest, errorReturned, t =>
      let t1 := { t with credResolutions := t.credResolutions + 1 }
      if cv.kubeConfigOk then
        let t2 := { t1 with addonsBuilds := t1.addonsBuilds + 1 }
        match buildAddonsRuntime cv.vaultClientOk cv.kubeClientsetOk
            e.addonRegexCompiles cv.addonsNewOk with
        | .panicked => (.panicked, t2)
        | .err => (.fatal .addonsBuild, t2)
        | .ok =>
            if cv.addonsLoadOk then
              let t3 := { t2 with workloadRuns := t2.workloadRuns + 1 }
              runClusters e rest (errorReturned || !cv.runOk) t3
            else (.fatal .addonsLoad, t2)
      else (.fatal .kubeConfig, t1)

/-- The body of `main` after `init`: version check, command parse, test
special case, then discovery and the per-cluster phase. -/
def mainGo (e : Env) : Outcome × Trace :=
  if e.showVersion then (.exit 0, {})
  else
    match getCmdAndPath e.args with
    | none => (.exit 1, {})
    | some (cmd, path) =>
        if cmd = "test" then
          let t : Trace := { testRuns := 1 }
          match e.testResult with
          | .error _ => (.fatal .testRun, t)
          | .ok ok => if ok then (.exit 0, t) else (.exit 1, t)
        else if path = "" then (.fatal .emptyPath, {})
        else if e.ctxParamsOk then
          let t1 : Trace := { discoveryConstructions := 1 }
          if e.clustersNewOk then
            let t2 := { t1 with discoveryLoads := 1 }
            if e.clustersLoadOk then runClusters e e.clusters false t2
            else (.fatal .clustersLoad, t2)
          else (.fatal .clustersRuntimeNew, t1)
        else (.fatal .ctxParams, {})

/-- The whole process: `init` (flag parse and the vault-token check,
`log.Fatalf` on an empty token) runs before `main`. -/
def process (e : Env) : Outcome × Trace :=
  if effectiveVaultToken e = "" then (.fatal .initVaultToken, {})
  else mainGo e

/-- The outcome of the test phase as a function of the test runner's
result alone. -/
def testOutcome : Except Unit Bool → Outcome
  | .error _ => .fatal .testRun
  | .ok true => .exit 0
  | .ok false => .exit 1

/-! ### Concrete environments used by witnesses and counterexamples -/

/-- A cluster visit with every collaborator call succeeding. -/
def cvAllOk : ClusterVisit :=
  { kubeConfigOk := true, vaultClientOk := true, kubeClientsetOk := true,
    addonsNewOk := true, addonsLoadOk := true, runOk := true }

/-- A fully healthy two-cluster run whose second cluster's workload
command fails. -/
def envTwoClusters : Env :=
  { vaultTokenFlagSet := true, vaultTokenFlagVal := "tok", vaultTokenEnv := "",
    showVersion := false, args := ["install", "main.ipd"],
    addonRegexCompiles := true, testResult := .ok true,
    ctxParamsOk := true, clustersNewOk := true, clustersLoadOk := true,
    clusters := [cvAllOk, { cvAllOk with runOk := false }],
    forEachOk := true }

/-- A `test` invocation whose tests ran and failed. -/
def envTest : Env :=
  { envTwoClusters with args := ["test", "sky/"], testResult := .ok false }

/-- An invocation with both the vault-token flag value and the environment
variable empty. -/
def envEmptyToken : Env :=
  { envTwoClusters with vaultTokenFlagVal := "", vaultTokenEnv := "" }

/-- A two-cluster run whose first cluster's credential resolution fails. -/
def envKubeConfFail : Env :=
  { envTwoClusters with
    clusters := [{ cvAllOk with kubeConfigOk := false }, cvAllOk] }

/-- A run whose `--match_addons` value does not compile. -/
def envRegexBad : Env :=
  { envTwoClusters with addonRegexCompiles := false }

/-- A resolver environment with ambient credentials, a healthy management
API and a cluster whose CA field decodes to the bytes 65 66 67. -/
def gkeEnvGood : GkeEnv :=
  { files := fun _ => none, credFromJSON := fun _ => false,
    defaultTokenSourceOk := true, newServiceOk := true,
    getCluster := fun _ => some ⟨"10.0.0.1", "QUJD"⟩ }

/-- A resolver environment whose cluster CA field is not valid base64. -/
def gkeEnvBadCA : GkeEnv :=
  { files := fun _ => none, credFromJSON := fun _ => false,
    defaultTokenSourceOk := true, newServiceOk := true,
    getCluster := fun _ => some ⟨"10.0.0.1", ":::"⟩ }

/-- A resolver environment whose cluster CA field is the encoding of the
byte string 104 105. -/
def gkeEnvRT : GkeEnv :=
  { files := fun _ => none, credFromJSON := fun _ => false,
    defaultTokenSourceOk := true, newServiceOk := true,
    getCluster := fun _ => some ⟨"34.1.2.3", base64Encode [104, 105]⟩ }

/-- A resolver environment for the service-account path: the key file is
readable and parses. -/
def gkeEnvSA : GkeEnv :=
  { files := fun p => if p = "key.json" then some [123, 125] else none,
    credFromJSON := fun _ => true,
    defaultTokenSourceOk := true, newServiceOk := true,
    getCluster := fun _ => some ⟨"10.0.0.1", "QUJD"⟩ }

/-! ### Base64 lemmas -/

theorem base64Index_base64Char {n : Nat} (h : n < 64) :
    base64Index (base64Char n) = some n := by
  have hb : ∀ m, m < 64 → base64Index (base64Char m) = some m := by decide
  exact hb n h

theorem base64Char_ne_pad (n : Nat) : base64Char n ≠ '=' := by
  by_cases h : n < 64
  · have hb : ∀ m, m < 64 → base64Char m ≠ '=' := by decide
    exact hb n h
  · have hlen : base64Alphabet.length = 64 := by decide
    have : base64Char n = 'A' := by
      unfold base64Char
      exact List.getD_eq_default _ _ (by omega)
    simp [this]

theorem base64Char_not_crlf (n : Nat) :
    (base64Char n == '\r' || base64Char n == '\n') = false := by
  by_cases h : n < 64
  · have hb : ∀ m, m < 64 → (base64Char m == '\r' || base64Char m == '\n') = false := by
      decide
    exact hb n h
  · have hlen : base64Alphabet.length = 64 := by decide
    have : base64Char n = 'A' := by
      unfold base64Char
      exact List.getD_eq_default _ _ (by omega)
    simp [this]

theorem b64EncodeChunks_not_crlf :
    ∀ bs : Bytes, ∀ c ∈ b64EncodeChunks bs, (!(c == '\r' || c == '\n')) = true
  | [] => by simp [b64EncodeChunks]
  | [b1] => by
      simp only [b64EncodeChunks, List.mem_cons, List.not_mem_nil, or_false]
      rintro c (rfl | rfl | rfl | rfl) <;>
        simp [base64Char_not_crlf]
  | [b1, b2] => by
      simp only [b64EncodeChunks, List.mem_cons, List.not_mem_nil, or_false]
      rintro c (rfl | rfl | rfl | rfl) <;>
        simp [base64Char_not_crlf]
  | b1 :: b2 :: b3 :: rest => by
      simp only [b64EncodeChunks, List.mem_cons]
      rintro c (rfl | rfl | rfl | rfl | hmem)
      · simp [base64Char_not_crlf]
      · simp [base64Char_not_crlf]
      · simp [base64Char_not_crlf]
      · simp [base64Char_not_crlf]
      · exact b64EncodeChunks_not_crlf rest c hmem

theorem b64DecodeChunks_encode :
    ∀ bs : Bytes, (∀ b ∈ bs, b < 256) →
      b64DecodeChunks (b64EncodeChunks bs) = some bs
  | [], _ => rfl
  | [b1], h => by
      have h1 : b1 < 256 := h b1 (by simp)
      have e1 : base64Index (base64Char (b1 / 4)) = some (b1 / 4) :=
        base64Index_base64Char (by omega)
      have e2 : base64Index (base64Char (b1 % 4 * 16)) = some (b1 % 4 * 16) :=
        base64Index_base64Char (by omega)
      simp only [b64EncodeChunks, b64DecodeChunks, e1, e2, if_pos rfl,
        and_self, if_true, Option.some.injEq, List.cons.injEq, and_true]
      omega
  | [b1, b2], h => by
      have h1 : b1 < 256 := h b1 (by simp)
      have h2 : b2 < 256 := h b2 (by simp)
      have e1 : base64Index (base64Char (b1 / 4)) = some (b1 / 4) :=
        base64Index_base64Char (by omega)
      have e2 : base64Index (base64Char (b1 % 4 * 16 + b2 / 16)) =
          some (b1 % 4 * 16 + b2 / 16) :=
        base64Index_base64Char (by omega)
      have e3 : base64Index (base64Char (b2 % 16 * 4)) = some (b2 % 16 * 4) :=
        base64Index_base64Char (by omega)
      have n3 : base64Char (b2 % 16 * 4) ≠ '=' := base64Char_ne_pad _
      simp only [b64EncodeChunks, b64DecodeChunks, e1, e2, e3, if_neg n3,
        if_pos rfl, if_true, Option.some.injEq, List.cons.injEq, and_true]
      omega
  | b1 :: b2 :: b3 :: rest, h => by
      have h1 : b1 < 256 := h b1 (by simp)
      have h2 : b2 < 256 := h b2 (by simp)
      have h3 : b3 < 256 := h b3 (by simp)
      have ih := b64DecodeChunks_encode rest (fun b hb => h b (by simp [hb]))
      have e1 : base64Index (base64Char (b1 / 4)) = some (b1 / 4) :=
        base64Index_base64Char (by omega)
      have e2 : base64Index (base64Char (b1 % 4 * 16 + b2 / 16)) =
          some (b1 % 4 * 16 + b2 / 16) :=
        base64Index_base64Char (by omega)
      have e3 : base64Index (base64Char (b2 % 16 * 4 + b3 / 64)) =
          some (b2 % 16 * 4 + b3 / 64) :=
        base64Index_base64Char (by omega)
      have e4 : base64Index (base64Char (b3 % 64)) = some (b3 % 64) :=
        base64Index_base64Char (by omega)
      have n3 : base64Char (b2 % 16 * 4 + b3 / 64) ≠ '=' := base64Char_ne_pad _
      have n4 : base64Char (b3 % 64) ≠ '=' := base64Char_ne_pad _
      simp only [b64EncodeChunks, b64DecodeChunks, e1, e2, e3, e4,
        if_neg n3, if_neg n4, ih, Option.map_some', Option.some.injEq,
        List.cons.injEq, and_true]
      refine ⟨by omega, by omega, by omega⟩

/-- Round trip: decoding an encoding recovers the original byte string. -/
theorem base64_decode_encode (bs : Bytes) (h : ∀ b ∈ bs, b < 256) :
    base64Decode (base64Encode bs) = some bs := by
  unfold base64Decode base64Encode
  have hfilter :
      (String.data ⟨b64EncodeChunks bs⟩).filter (fun c => !(c == '\r' || c == '\n'))
        = b64EncodeChunks bs := by
    refine List.filter_eq_self.mpr ?_
    exact b64EncodeChunks_not_crlf bs
  rw [hfilter]
  exact b64DecodeChunks_encode bs h

/-! ### Resolver lemmas and claims -/

/-- The shared cluster-lookup procedure never creates a token source: it
only consumes the one it is given. -/
theorem buildKubeRestConf_tokens (env : GkeEnv) (cn loc proj ua : String)
    (tok : Nat) (s : GkeState) :
    (buildKubeRestConf env cn loc proj ua tok s).2.nextTokenId = s.nextTokenId
    ∧ (buildKubeRestConf env cn loc proj ua tok s).2.tokenOrigins
        = s.tokenOrigins := by
  unfold buildKubeRestConf
  by_cases h : env.newServiceOk
  · simp only [h, if_true]
    cases env.getCluster (resourceName proj loc cn) with
    | none => simp
    | some cluster =>
        cases hd : base64Decode cluster.clusterCaCertificate <;> simp [hd]
  · simp [h]

/-- C7: the resolver entry point dispatches on the configured
service-account key path: an empty path is extensionally the
default-credential resolver, a non-empty path is the service-account-key
strategy. -/
theorem sa_cred_dispatch (env : GkeEnv) (cn loc proj k ua : String)
    (s : GkeState) :
    BuildKubeRestConfSACred env cn loc proj "" ua s
        = BuildKubeRestConfDefaultCred env cn loc proj ua s
    ∧ (k ≠ "" → BuildKubeRestConfSACred env cn loc proj k ua s
        = saKeyStrategy env cn loc proj k ua s) := by
  constructor
  · simp [BuildKubeRestConfSACred]
  · intro hk
    simp [BuildKubeRestConfSACred, saKeyStrategy, hk]

/-- C7 witness: the dispatch equalities at a concrete environment, key
path and state. -/
theorem sa_cred_dispatch_witness :
    BuildKubeRestConfSACred gkeEnvSA "c" "l" "p" "" "ua" ⟨0, [], 0, 0⟩
        = BuildKubeRestConfDefaultCred gkeEnvSA "c" "l" "p" "ua" ⟨0, [], 0, 0⟩
    ∧ BuildKubeRestConfSACred gkeEnvSA "c" "l" "p" "key.json" "ua" ⟨0, [], 0, 0⟩
        = saKeyStrategy gkeEnvSA "c" "l" "p" "key.json" "ua" ⟨0, [], 0, 0⟩ :=
  ⟨(sa_cred_dispatch gkeEnvSA "c" "l" "p" "key.json" "ua" ⟨0, [], 0, 0⟩).1,
   (sa_cred_dispatch gkeEnvSA "c" "l" "p" "key.json" "ua" ⟨0, [], 0, 0⟩).2
     (by decide)⟩

/-- C8: an unreadable or missing service-account key file fails with the
wrapped credential-file error, and the resolver state is returned
untouched: no management-API client construction, no cluster lookup, no
token source derived. -/
theorem sa_key_file_error_before_network (env : GkeEnv)
    (cn loc proj k ua : String) (s : GkeState)
    (hk : k ≠ "") (hf : env.files k = none) :
    BuildKubeRestConfSACred env cn loc proj k ua s
      = (.error (.tokenSourceFromSA (.credentialFile k)), s) := by
  simp [BuildKubeRestConfSACred, hk, GoogleCredTokenSourceFromSAKey, hf]

/-- C8 witness: a missing key file at a concrete environment; the state
still shows zero constructions and lookups. -/
theorem sa_key_file_error_before_network_witness :
    BuildKubeRestConfSACred gkeEnvSA "c" "l" "p" "missing.json" "ua"
        ⟨0, [], 0, 0⟩
      = (.error (.tokenSourceFromSA (.credentialFile "missing.json")),
         ⟨0, [], 0, 0⟩) :=
  sa_key_file_error_before_network gkeEnvSA "c" "l" "p" "missing.json" "ua"
    ⟨0, [], 0, 0⟩ (by decide) (by decide)

/-- C6: when the CA field is the base64 encoding of bytes X, resolution
succeeds, the CA data round-trips to X exactly, and the host is the
endpoint with the https scheme prepended. -/
theorem ca_cert_roundtrip (env : GkeEnv) (cn loc proj ua : String)
    (tok : Nat) (s : GkeState) (X : Bytes) (info : ClusterInfo)
    (hX : ∀ b ∈ X, b < 256)
    (hsvc : env.newServiceOk = true)
    (hget : env.getCluster (resourceName proj loc cn) = some info)
    (hca : info.clusterCaCertificate = base64Encode X) :
    (buildKubeRestConf env cn loc proj ua tok s).1 =
      .ok ⟨"https://" ++ info.endpoint, X, tok, ua⟩ := by
  unfold buildKubeRestConf
  simp [hsvc, hget, hca, base64_decode_encode X hX]

/-- C6 witness: the bytes 104 105 survive the encode-decode trip into the
resolved configuration. -/
theorem ca_cert_roundtrip_witness :
    (buildKubeRestConf gkeEnvRT "c" "l" "p" "ua" 7 ⟨0, [], 0, 0⟩).1 =
      .ok ⟨"https://34.1.2.3", [104, 105], 7, "ua"⟩ :=
  ca_cert_roundtrip gkeEnvRT "c" "l" "p" "ua" 7 ⟨0, [], 0, 0⟩ [104, 105]
    ⟨"34.1.2.3", base64Encode [104, 105]⟩ (by decide) rfl rfl rfl

/-- C3 counterexample: two clusters resolved on the default-credential
path create two token sources (two `defaultCred` origins, allocator at 2),
and the two configurations hold different token sources (ids 0 and 1) —
not one instance created once and shared by reference. -/
theorem default_token_source_not_shared_counterexample :
    resolveAll gkeEnvGood [⟨"c1", "us", "p"⟩, ⟨"c2", "us", "p"⟩] "" "ua"
        ⟨0, [], 0, 0⟩
      = ([.ok ⟨"https://10.0.0.1", [65, 66, 67], 0, "ua"⟩,
          .ok ⟨"https://10.0.0.1", [65, 66, 67], 1, "ua"⟩],
         ⟨2, [.defaultCred, .defaultCred], 2, 2⟩) := by
  rfl

/-- C3 (amended): every default-credential resolution call obtains its own
fresh TokenSource from the environment (one new `defaultCred` origin, the
allocator advances), and the service-account path likewise derives a fresh
TokenSource from the key-file bytes on each call; no call reuses an
earlier instance. -/
theorem token_source_fresh_per_call (env : GkeEnv)
    (cn loc proj k ua : String) (s : GkeState) :
    (env.defaultTokenSourceOk = true →
      (BuildKubeRestConfDefaultCred env cn loc proj ua s).2.tokenOrigins
          = s.tokenOrigins ++ [TokenOrigin.defaultCred]
      ∧ (BuildKubeRestConfDefaultCred env cn loc proj ua s).2.nextTokenId
          = s.nextTokenId + 1)
    ∧ (∀ b : Bytes, k ≠ "" → env.files k = some b →
        env.credFromJSON b = true →
        (BuildKubeRestConfSACred env cn loc proj k ua s).2.tokenOrigins
            = s.tokenOrigins ++ [TokenOrigin.saKey k]
        ∧ (BuildKubeRestConfSACred env cn loc proj k ua s).2.nextTokenId
            = s.nextTokenId + 1) := by
  constructor
  · intro hdef
    unfold BuildKubeRestConfDefaultCred
    simp only [hdef, if_true]
    constructor
    · rw [(buildKubeRestConf_tokens env cn loc proj ua s.nextTokenId _).2]
    · rw [(buildKubeRestConf_tokens env cn loc proj ua s.nextTokenId _).1]
  · intro b hk hf hparse
    unfold BuildKubeRestConfSACred
    rw [if_neg hk]
    simp only [GoogleCredTokenSourceFromSAKey, hf, hparse, if_true]
    constructor
    · rw [(buildKubeRestConf_tokens env cn loc proj ua s.nextTokenId _).2]
    · rw [(buildKubeRestConf_tokens env cn loc proj ua s.nextTokenId _).1]

/-- C3 amended-claim witness: the freshness facts at a concrete
environment, for both credential paths. -/
theorem token_source_fresh_per_call_witness :
    ((BuildKubeRestConfDefaultCred gkeEnvSA "c" "l" "p" "ua"
        ⟨5, [.defaultCred], 0, 0⟩).2.tokenOrigins
      = [.defaultCred] ++ [TokenOrigin.defaultCred]
    ∧ (BuildKubeRestConfDefaultCred gkeEnvSA "c" "l" "p" "ua"
        ⟨5, [.defaultCred], 0, 0⟩).2.nextTokenId = 5 + 1)
    ∧ ((BuildKubeRestConfSACred gkeEnvSA "c" "l" "p" "key.json" "ua"
        ⟨5, [.defaultCred], 0, 0⟩).2.tokenOrigins
      = [.defaultCred] ++ [TokenOrigin.saKey "key.json"]
    ∧ (BuildKubeRestConfSACred gkeEnvSA "c" "l" "p" "key.json" "ua"
        ⟨5, [.defaultCred], 0, 0⟩).2.nextTokenId = 5 + 1) :=
  ⟨(token_source_fresh_per_call gkeEnvSA "c" "l" "p" "key.json" "ua"
      ⟨5, [.defaultCred], 0, 0⟩).1 rfl,
   (token_source_fresh_per_call gkeEnvSA "c" "l" "p" "key.json" "ua"
      ⟨5, [.defaultCred], 0, 0⟩).2 [123, 125] (by decide) (by decide) rfl⟩

/-! ### Orchestrator lemmas and claims -/

/-- When every per-cluster setup step succeeds, the loop visits every
cluster: one credential resolution and one workload run each, and the
outcome is decided by the accumulated flag folded with the run results. -/
theorem runClusters_all_ok (e : Env) (hre : e.addonRegexCompiles = true)
    (hfe : e.forEachOk = true) :
    ∀ (l : List ClusterVisit) (flag : Bool) (t : Trace),
      (∀ cv ∈ l, cv.kubeConfigOk = true ∧ cv.vaultClientOk = true ∧
        cv.kubeClientsetOk = true ∧ cv.addonsNewOk = true ∧
        cv.addonsLoadOk = true) →
      (runClusters e l flag t).1 =
          (if (flag || l.any fun cv => !cv.runOk) then Outcome.exit 2
           else Outcome.exit 0)
        ∧ (runClusters e l flag t).2.credResolutions
            = t.credResolutions + l.length
        ∧ (runClusters e l flag t).2.workloadRuns
            = t.workloadRuns + l.length
  | [], flag, t, _ => by
      simp [runClusters, hfe]
      cases flag <;> simp
  | cv :: rest, flag, t, hl => by
      obtain ⟨h1, h2, h3, h4, h5⟩ := hl cv (by simp)
      have hstep : runClusters e (cv :: rest) flag t
          = runClusters e rest (flag || !cv.runOk)
              { t with credResolutions := t.credResolutions + 1,
                       addonsBuilds := t.addonsBuilds + 1,
                       workloadRuns := t.workloadRuns + 1 } := by
        simp [runClusters, h1, h2, h3, h4, h5, hre, buildAddonsRuntime]
      have ih := runClusters_all_ok e hre hfe rest (flag || !cv.runOk)
        { t with credResolutions := t.credResolutions + 1,
                 addonsBuilds := t.addonsBuilds + 1,
                 workloadRuns := t.workloadRuns + 1 }
        (fun c hc => hl c (by simp [hc]))
      rw [hstep]
      refine ⟨?_, ?_, ?_⟩
      · rw [ih.1]
        simp [List.any_cons, Bool.or_assoc]
      · rw [ih.2.1]; simp; omega
      · rw [ih.2.2]; simp; omega

/-- A list has a failing run exactly when the failing-run count is
positive. -/
theorem any_notRunOk_eq_countP (l : List ClusterVisit) :
    (l.any fun cv => !cv.runOk)
      = !((l.countP fun cv => !cv.runOk) == 0) := by
  induction l with
  | nil => rfl
  | cons a l ih =>
      by_cases h : a.runOk <;>
        simp [List.any_cons, List.countP_cons, h, ih]

/-- The loop emits an explicit exit status only from its final flag check:
`exit 0`, or `exit 2` when the flag was set on entry or some visited
cluster's run failed. -/
theorem runClusters_exit_inv (e : Env) :
    ∀ (l : List ClusterVisit) (flag : Bool) (t : Trace) (c : Nat),
      (runClusters e l flag t).1 = Outcome.exit c →
      c = 0 ∨ (c = 2 ∧ (flag = true ∨ ∃ cv ∈ l, cv.runOk = false))
  | [], flag, t, c => by
      intro h
      simp only [runClusters] at h
      by_cases hf : e.forEachOk
      · simp only [hf, if_true] at h
        cases flag with
        | false => simp at h; exact Or.inl h.symm
        | true =>
            simp at h
            exact Or.inr ⟨h.symm, Or.inl rfl⟩
      · simp [hf] at h
  | cv :: rest, flag, t, c => by
      intro h
      simp only [runClusters] at h
      by_cases hk : cv.kubeConfigOk
      · simp only [hk, if_true] at h
        cases hb : buildAddonsRuntime cv.vaultClientOk cv.kubeClientsetOk
            e.addonRegexCompiles cv.addonsNewOk with
        | panicked => rw [hb] at h; simp at h
        | err => rw [hb] at h; simp at h
        | ok =>
            rw [hb] at h
            by_cases hl : cv.addonsLoadOk
            · simp only [hl, if_true] at h
              rcases runClusters_exit_inv e rest (flag || !cv.runOk) _ c h with
                hc | ⟨hc, hrest⟩
              · exact Or.inl hc
              · refine Or.inr ⟨hc, ?_⟩
                rcases hrest with hor | ⟨cv2, hmem, hfail⟩
                · rcases Bool.or_eq_true_iff.mp hor with hfl | hnr
                  · exact Or.inl hfl
                  · exact Or.inr ⟨cv, by simp, by simpa using hnr⟩
                · exact Or.inr ⟨cv2, by simp [hmem], hfail⟩
            · simp [hl] at h
      · simp [hk] at h

/-- C1: with discovery, credential resolution and runtime
construction/load all succeeding, the orchestrator attempts the workload
on every discovered cluster in order, tolerating per-cluster run
failures, and finishes with exit 2 when at least one run failed and
exit 0 when none did. -/
theorem orchestrator_partial_failure (e : Env)
    (hv : effectiveVaultToken e ≠ "")
    (hsv : e.showVersion = false)
    (cmd path : String) (restArgs : List String)
    (hargs : e.args = cmd :: path :: restArgs)
    (hcmd : cmd ≠ "test") (hpath : path ≠ "")
    (hctx : e.ctxParamsOk = true) (hnew : e.clustersNewOk = true)
    (hload : e.clustersLoadOk = true) (hfe : e.forEachOk = true)
    (hre : e.addonRegexCompiles = true)
    (hcl : ∀ cv ∈ e.clusters, cv.kubeConfigOk = true ∧
      cv.vaultClientOk = true ∧ cv.kubeClientsetOk = true ∧
      cv.addonsNewOk = true ∧ cv.addonsLoadOk = true) :
    (process e).2.credResolutions = e.clusters.length
    ∧ (process e).2.workloadRuns = e.clusters.length
    ∧ (process e).1 =
        (if (e.clusters.countP fun cv => !cv.runOk) = 0 then Outcome.exit 0
         else Outcome.exit 2) := by
  have hrc := runClusters_all_ok e hre hfe e.clusters false
    { discoveryConstructions := 1, discoveryLoads := 1 } hcl
  have hp : process e
      = runClusters e e.clusters false
          { discoveryConstructions := 1, discoveryLoads := 1 } := by
    simp only [process, if_neg hv, mainGo, hsv, Bool.false_eq_true,
      if_false, hargs, getCmdAndPath]
    rw [if_neg hcmd, if_neg hpath]
    simp [hctx, hnew, hload]
  rw [hp]
  refine ⟨by rw [hrc.2.1]; simp, by rw [hrc.2.2]; simp, ?_⟩
  rw [hrc.1, any_notRunOk_eq_countP]
  by_cases hz : (e.clusters.countP fun cv => !cv.runOk) = 0 <;> simp [hz]

/-- C1 witness: two clusters, the second one's workload run failing; both
are attempted and the run completes with exit status 2. -/
theorem orchestrator_partial_failure_witness :
    (process envTwoClusters).2.credResolutions = 2
    ∧ (process envTwoClusters).2.workloadRuns = 2
    ∧ (process envTwoClusters).1 = Outcome.exit 2 := by
  obtain ⟨ha, hb, hc⟩ := orchestrator_partial_failure envTwoClusters
    (by decide) rfl "install" "main.ipd" [] rfl (by decide) (by decide)
    rfl rfl rfl rfl rfl (by decide)
  exact ⟨ha, hb, hc.trans (by decide)⟩

/-- C2 counterexample: `isopod install` with no entry path is a non-test
invocation, yet it exits with status 1 via usageAndDie without any test
having run — status 1 is not reserved for test-command failure. -/
theorem exit_one_usage_counterexample :
    (process { envTwoClusters with args := ["install"] }).1 = Outcome.exit 1
    ∧ (process { envTwoClusters with args := ["install"] }).2.testRuns = 0
    ∧ ({ envTwoClusters with args := ["install"] } : Env).args.head?
        ≠ some "test" := by
  refine ⟨rfl, rfl, by decide⟩

/-- C2 (amended): the explicit exit statuses are 0, 1 and 2; status 1
arises exactly from a test failure or from a command-line usage error
(usageAndDie), status 2 only when some cluster's workload run failed;
fatal setup, discovery and credential errors terminate through the
logging library instead of an explicit exit. -/
theorem exit_code_classification (e : Env) (c : Nat)
    (h : (process e).1 = Outcome.exit c) :
    c = 0
    ∨ (c = 1 ∧ (getCmdAndPath e.args = none
        ∨ ((getCmdAndPath e.args).map Prod.fst = some "test"
            ∧ e.testResult = Except.ok false)))
    ∨ (c = 2 ∧ ∃ cv ∈ e.clusters, cv.runOk = false) := by
  by_cases hv : effectiveVaultToken e = ""
  · simp [process, hv] at h
  · rw [process, if_neg hv] at h
    by_cases hsv : e.showVersion
    · simp [mainGo, hsv] at h
      exact Or.inl h.symm
    · rw [mainGo] at h
      simp only [hsv, Bool.false_eq_true, if_false] at h
      cases hcp : getCmdAndPath e.args with
      | none =>
          rw [hcp] at h
          simp at h
          exact Or.inr (Or.inl ⟨h.symm, Or.inl rfl⟩)
      | some cp =>
          rw [hcp] at h
          obtain ⟨cmd, path⟩ := cp
          by_cases hcmd : cmd = "test"
          · subst hcmd
            cases ht : e.testResult with
            | error u => simp [ht] at h
            | ok b =>
                cases b with
                | true => simp [ht] at h; exact Or.inl h.symm
                | false =>
                    simp [ht] at h
                    exact Or.inr (Or.inl
                      ⟨h.symm, Or.inr ⟨by simp [hcp], rfl⟩⟩)
          · by_cases hpath : path = ""
            · simp [hcmd, hpath] at h
            · by_cases hctx : e.ctxParamsOk
              · by_cases hnew : e.clustersNewOk
                · by_cases hload : e.clustersLoadOk
                  · simp [hcmd, hpath, hctx, hnew, hload] at h
                    rcases runClusters_exit_inv e e.clusters false _ c h with
                      hc | ⟨hc, hrest⟩
                    · exact Or.inl hc
                    · rcases hrest with hfl | hex
                      · exact absurd hfl (by simp)
                      · exact Or.inr (Or.inr ⟨hc, hex⟩)
                  · simp [hcmd, hpath, hctx, hnew, hload] at h
                · simp [hcmd, hpath, hctx, hnew] at h
              · simp [hcmd, hpath, hctx] at h

/-- C2 amended-claim witness: the classification applied to the concrete
two-cluster run that exits with status 2. -/
theorem exit_code_classification_witness :
    2 = 0
    ∨ (2 = 1 ∧ (getCmdAndPath envTwoClusters.args = none
        ∨ ((getCmdAndPath envTwoClusters.args).map Prod.fst = some "test"
            ∧ envTwoClusters.testResult = Except.ok false)))
    ∨ (2 = 2 ∧ ∃ cv ∈ envTwoClusters.clusters, cv.runOk = false) :=
  exit_code_classification envTwoClusters 2 (by decide)

/-- C4: an invocation whose command word is `test` performs no
discovery-runtime construction or load and no per-cluster credential
resolution, whatever the target path holds; and once past startup (vault
token set, no version flag) its outcome is exactly the test runner's
error-or-boolean result. -/
theorem test_bypasses_discovery (e : Env)
    (hhead : e.args.head? = some "test") :
    ((process e).2.discoveryConstructions = 0
      ∧ (process e).2.discoveryLoads = 0
      ∧ (process e).2.credResolutions = 0)
    ∧ (effectiveVaultToken e ≠ "" → e.showVersion = false →
        (process e).1 = testOutcome e.testResult) := by
  obtain ⟨rest, hargs⟩ : ∃ rest, e.args = "test" :: rest := by
    cases ha : e.args with
    | nil => rw [ha] at hhead; simp at hhead
    | cons a l =>
        rw [ha] at hhead
        simp at hhead
        exact ⟨l, by rw [hhead]⟩
  have hget : ∃ p, getCmdAndPath e.args = some ("test", p) := by
    rw [hargs]
    cases rest with
    | nil => exact ⟨"", by simp [getCmdAndPath]⟩
    | cons p l => exact ⟨p, by simp [getCmdAndPath]⟩
  by_cases hv : effectiveVaultToken e = ""
  · refine ⟨by simp [process, hv], fun hv2 _ => absurd hv hv2⟩
  · by_cases hsv : e.showVersion
    · refine ⟨by simp [process, hv, mainGo, hsv], fun _ hsv2 => ?_⟩
      rw [hsv2] at hsv
      simp at hsv
    · obtain ⟨p, hp⟩ := hget
      have hrun : process e = (testOutcome e.testResult, { testRuns := 1 }) := by
        rw [process, if_neg hv, mainGo]
        cases ht : e.testResult with
        | error u => simp [hsv, hp, ht, testOutcome]
        | ok b => cases b <;> simp [hsv, hp, ht, testOutcome]
      rw [hrun]
      exact ⟨⟨rfl, rfl, rfl⟩, fun _ _ => rfl⟩

/-- C4 witness: a concrete `test` invocation with failing tests: no
discovery, no credential resolution, outcome decided by the runner. -/
theorem test_bypasses_discovery_witness :
    ((process envTest).2.discoveryConstructions = 0
      ∧ (process envTest).2.discoveryLoads = 0
      ∧ (process envTest).2.credResolutions = 0)
    ∧ (process envTest).1 = testOutcome envTest.testResult :=
  ⟨(test_bypasses_discovery envTest rfl).1,
   (test_bypasses_discovery envTest rfl).2 (by decide) rfl⟩

/-- C5 counterexample: with the first of two clusters carrying an invalid
base64 CA field, the resolver rejects it with the certificate-decode
error; and in the orchestrator a first-cluster credential-resolution
failure terminates the whole run — one resolution attempted, zero
workload runs — so the second cluster is never processed, contradicting
"leaving other clusters processable". -/
theorem cert_decode_scope_counterexample :
    (buildKubeRestConf gkeEnvBadCA "c" "l" "p" "ua" 0 ⟨0, [], 0, 0⟩).1
        = .error .certDecode
    ∧ (process envKubeConfFail).1 = Outcome.fatal FatalPhase.kubeConfig
    ∧ (process envKubeConfFail).2.credResolutions = 1
    ∧ (process envKubeConfFail).2.workloadRuns = 0 := by
  refine ⟨rfl, rfl, rfl, rfl⟩

/-- C5 (amended): a CA field that is not valid base64 makes resolution
fail with the certificate-decode error, distinct from the cluster-lookup
error, and no ClientConfiguration is produced; in the orchestrator that
per-cluster credential failure is fatal to the entire run — it terminates
at that cluster and remaining clusters are not processed. -/
theorem cert_decode_failure_fatal :
    (∀ (env : GkeEnv) (cn loc proj ua : String) (tok : Nat) (s : GkeState)
        (info : ClusterInfo),
      env.newServiceOk = true →
      env.getCluster (resourceName proj loc cn) = some info →
      base64Decode info.clusterCaCertificate = none →
      buildKubeRestConf env cn loc proj ua tok s =
        (.error .certDecode,
         { s with svcConstructions := s.svcConstructions + 1,
                  clusterGets := s.clusterGets + 1 }))
    ∧ (∀ (e : Env) (cv : ClusterVisit) (rest : List ClusterVisit)
        (flag : Bool) (t : Trace),
      cv.kubeConfigOk = false →
      runClusters e (cv :: rest) flag t =
        (.fatal .kubeConfig,
         { t with credResolutions := t.credResolutions + 1 })) := by
  constructor
  · intro env cn loc proj ua tok s info hsvc hget hdec
    simp [buildKubeRestConf, hsvc, hget, hdec]
  · intro e cv rest flag t hk
    simp [runClusters, hk]

/-- C5 amended-claim witness: both halves at concrete inputs. -/
theorem cert_decode_failure_fatal_witness :
    buildKubeRestConf gkeEnvBadCA "c" "l" "p" "ua" 0 ⟨0, [], 0, 0⟩
        = (.error .certDecode, ⟨0, [], 1, 1⟩)
    ∧ runClusters envKubeConfFail
        [{ cvAllOk with kubeConfigOk := false }, cvAllOk] false {}
        = (.fatal .kubeConfig, { credResolutions := 1 }) :=
  ⟨cert_decode_failure_fatal.1 gkeEnvBadCA "c" "l" "p" "ua" 0 ⟨0, [], 0, 0⟩
     ⟨"10.0.0.1", ":::"⟩ rfl rfl (by decide),
   cert_decode_failure_fatal.2 envKubeConfFail
     { cvAllOk with kubeConfigOk := false } [cvAllOk] false {} rfl⟩

/-- C9: with both the vault-token flag value and the environment variable
empty, the process dies in package initialization with the vault-token
fatal, before the version flag, the command word, tests or discovery are
even examined (the trace stays empty); conversely any run not stopped by
that check had a non-empty effective vault token. -/
theorem vault_token_init_gate (e : Env) :
    (e.vaultTokenFlagVal = "" → e.vaultTokenEnv = "" →
      process e = (Outcome.fatal FatalPhase.initVaultToken, {}))
    ∧ ((process e).1 ≠ Outcome.fatal FatalPhase.initVaultToken →
        effectiveVaultToken e ≠ "") := by
  constructor
  · intro hf he
    have hv : effectiveVaultToken e = "" := by
      unfold effectiveVaultToken
      split <;> assumption
    simp [process, hv]
  · intro h hz
    exact h (by simp [process, hz])

/-- C9 witness: the init fatal at a concrete empty-token environment, and
the converse at the healthy environment. -/
theorem vault_token_init_gate_witness :
    process envEmptyToken = (Outcome.fatal FatalPhase.initVaultToken, {})
    ∧ effectiveVaultToken envTwoClusters ≠ "" :=
  ⟨(vault_token_init_gate envEmptyToken).1 rfl rfl,
   (vault_token_init_gate envTwoClusters).2 (by decide)⟩

/-- C10: when the Vault client and Kubernetes clientset are obtained but
`--match_addons` does not compile, per-cluster addons-runtime construction
panics via regexp.MustCompile rather than returning a wrapped error, and
the orchestrator's cluster visit ends in the panic; with a compiling
pattern the panic branch is unreachable. -/
theorem match_addons_must_compile (v k n : Bool) :
    (v = true → k = true → buildAddonsRuntime v k false n = .panicked)
    ∧ buildAddonsRuntime v k true n ≠ .panicked
    ∧ (∀ (e : Env) (cv : ClusterVisit) (rest : List ClusterVisit)
        (flag : Bool) (t : Trace),
      e.addonRegexCompiles = false → cv.kubeConfigOk = true →
      cv.vaultClientOk = true → cv.kubeClientsetOk = true →
      (runClusters e (cv :: rest) flag t).1 = Outcome.panicked) := by
  refine ⟨?_, ?_, ?_⟩
  · rintro rfl rfl
    rfl
  · cases v <;> cases k <;> cases n <;> decide
  · intro e cv rest flag t hre hk hvv hkk
    simp [runClusters, hk, buildAddonsRuntime, hvv, hkk, hre]

/-- C10 witness: the panic at concrete inputs and its absence for a
compiling pattern, including through the orchestrator loop. -/
theorem match_addons_must_compile_witness :
    buildAddonsRuntime true true false true = .panicked
    ∧ buildAddonsRuntime true true true true ≠ .panicked
    ∧ (runClusters envRegexBad [cvAllOk] false {}).1 = Outcome.panicked :=
  ⟨(match_addons_must_compile true true true).1 rfl rfl,
   (match_addons_must_compile true true true).2.1,
   (match_addons_must_compile true true true).2.2 envRegexBad cvAllOk [] false
     {} rfl rfl rfl rfl⟩

end Isopod
